import Mathlib

/-!
Verification of the Product catalog REST service.

The HTTP resource layer is embedded from `src/service/routes.py`.
HTTP requests are modelled by their relevant pieces (query parameters as
`Option String`, the Content-Type header as `Option String`, JSON bodies
as a record of optional fields), the relational store as a list of
records, and a handler as a pure function from those inputs to a
response (status code plus body) and, for mutating handlers, the
resulting store. Error responses carry only their status code; the
human-readable message text of the Python `abort` calls is elided.

The entity layer (class `Product` and enum `Category` in
`service/models.py`) is not among the provided sources; those
definitions are modelled from the spec, each marked
`Modelled from the spec:` in its doc comment.
-/

namespace ProductService

/-- Modelled from the spec: the `Category` enumeration of
`service/models.py` is not among the provided sources. Per spec section 3
it is a fixed enumeration of string-named values whose exact member set
is deployment-specific; the members CLOTHS and FOOD named by the spec
(section 2) and the test suite are included. -/
inductive Category where
  | CLOTHS
  | FOOD
deriving DecidableEq

/-- The string name of a category member, as emitted by serialization
(Python `category.name`). -/
def Category.name : Category → String
  | .CLOTHS => "CLOTHS"
  | .FOOD => "FOOD"

/-- Modelled from the spec: case-sensitive lookup-by-name on the
enumeration (Python `Category[name]`, spec section 4.1), returning
`none` where Python raises `KeyError`. -/
def Category.fromName (s : String) : Option Category :=
  if s = "CLOTHS" then some .CLOTHS
  else if s = "FOOD" then some .FOOD
  else none

/-- Modelled from the spec: the `Product` entity of `service/models.py`
(spec section 3): `id` integer assigned by the store (absent before
creation), `name` string, `description` string, `price` exact decimal
(embedded as a rational), `available` boolean, `category` a `Category`
member. -/
structure Product where
  id : Option Nat
  name : String
  description : String
  price : ℚ
  available : Bool
  category : Category
deriving DecidableEq

/-- A JSON object for a product, as sent in request bodies and returned
in responses: the six keys of spec section 6, each possibly absent.
JSON numbers are embedded as rationals (exact decimals, spec section 3). -/
structure Payload where
  id : Option Nat
  name : Option String
  description : Option String
  price : Option ℚ
  available : Option Bool
  category : Option String
deriving DecidableEq

/-- Modelled from the spec: `Product.serialize` (spec section 4.2)
produces a mapping with keys id, name, description, price, available,
category, where category is emitted as its string name and price
round-trips to the exact decimal supplied. -/
def Product.serialize (p : Product) : Payload :=
  { id := p.id
    name := some p.name
    description := some p.description
    price := some p.price
    available := some p.available
    category := some p.category.name }

/-- Modelled from the spec: `Product.deserialize` (spec section 4.2)
populates fields from a mapping; fails with a validation error if
`name` is missing or if `category` does not resolve to a known member;
accepts `available` as a boolean and `price` as an exact decimal;
`description` is optional and defaults to empty (spec section 3);
`price` and `available` are required fields (spec section 3
invariants). Does not assign `id`. -/
def Product.deserialize (p : Product) (data : Payload) : Except String Product :=
  match data.name with
  | none => .error "missing name"
  | some nm =>
    match data.category with
    | none => .error "missing category"
    | some cs =>
      match Category.fromName cs with
      | none => .error "invalid category"
      | some cat =>
        match data.available with
        | none => .error "missing available"
        | some av =>
          match data.price with
          | none => .error "missing price"
          | some pr =>
            .ok { p with
                    name := nm
                    description := data.description.getD ""
                    price := pr
                    available := av
                    category := cat }

/-- The relational store: the list of stored rows. Stored rows carry an
assigned id. -/
abbrev Store := List Product

/-- Modelled from the spec: `Product.find(id)` (spec section 4.2)
returns the matching record or an absence signal. -/
def Product.find (store : Store) (pid : Nat) : Option Product :=
  store.find? (fun p => p.id = some pid)

/-- Modelled from the spec: `Product.all()` returns every stored record
(spec section 4.2). -/
def Product.all (store : Store) : List Product :=
  store

/-- Modelled from the spec: `Product.find_by_name(name)` is an
exact-match equality filter (spec section 4.2). -/
def Product.find_by_name (store : Store) (nm : String) : List Product :=
  store.filter (fun p => p.name = nm)

/-- Modelled from the spec: `Product.find_by_category(category)` is an
exact-match equality filter on the enumeration member (spec
section 4.2). -/
def Product.find_by_category (store : Store) (cat : Category) : List Product :=
  store.filter (fun p => p.category = cat)

/-- Modelled from the spec: `Product.find_by_availability(flag)` is an
exact-match equality filter on the boolean (spec section 4.2). -/
def Product.find_by_availability (store : Store) (flag : Bool) : List Product :=
  store.filter (fun p => p.available = flag)

/-- A fresh id for a newly inserted row: one more than the largest id in
use. Stands in for the id generation the spec delegates to the store
(spec section 3: assigned by the store on creation). -/
def freshId (store : Store) : Nat :=
  store.foldr (fun p acc => max (p.id.getD 0) acc) 0 + 1

/-- Modelled from the spec: `Product.create()` inserts a new row and
assigns the generated id on the in-memory object (spec section 4.2). -/
def Product.create (store : Store) (p : Product) : Store × Product :=
  let p1 := { p with id := some (freshId store) }
  (store ++ [p1], p1)

/-- Modelled from the spec: `Product.update()` persists current field
values to the existing row identified by `id` (spec section 4.2). -/
def Product.update (store : Store) (p : Product) : Store :=
  store.map (fun q => if q.id = p.id then p else q)

/-- Modelled from the spec: `Product.delete()` removes the row
identified by `id` (spec section 4.2). -/
def Product.delete (store : Store) (pid : Nat) : Store :=
  store.filter (fun q => q.id ≠ some pid)

/-- An HTTP response: a status code with a body on success, or a bare
error status code (produced by the `abort` calls in the routes; message
text elided). -/
inductive HttpResult (α : Type) where
  | ok : Nat → α → HttpResult α
  | err : Nat → HttpResult α
deriving DecidableEq

/-- The status code of a response. -/
def HttpResult.code : HttpResult α → Nat
  | .ok c _ => c
  | .err c => c

/-- The expected media type of create and update requests. -/
def appJson : String := "application/json"

/-- `check_content_type` of `src/service/routes.py` lines 50 to 66:
aborts with 415 when the Content-Type header is absent, returns when it
equals the expected value exactly, and aborts with 415 otherwise. The
header is modelled as `Option String`; the result is the abort status
code, if any. -/
def check_content_type (header : Option String) (content_type : String) : Option Nat :=
  match header with
  | none => some 415
  | some v => if v = content_type then none else some 415

/-- Python truthiness of `request.args.get(..)`: the parameter is
present and non-empty (lines 109 and 111 of `src/service/routes.py`
test `if name:` and `elif category:`). -/
def truthy : Option String → Bool
  | none => false
  | some s => !s.isEmpty

/-- The embedding of the Python `str.lower()` call on the availability
parameter: character-wise ASCII lowercasing (the accepted tokens are
all ASCII, where the Python method agrees with this mapping). -/
def pyLower (s : String) : String :=
  ⟨s.data.map Char.toLower⟩

/-- The availability token parsing of `src/service/routes.py` lines 118
to 123: lowercase membership in true tokens, then in false tokens,
otherwise the abort branch (modelled as `none`). -/
def parseAvail (available : String) : Option Bool :=
  if pyLower available ∈ (["true", "1", "yes"] : List String) then some true
  else if pyLower available ∈ (["false", "0", "no"] : List String) then some false
  else none

/-- `list_products` of `src/service/routes.py` lines 101 to 129: the
three query parameters are dispatched in priority order name, category,
available; `name` and `category` are tested for truthiness, `available`
for presence (`is not None`); an unknown category aborts 400; an
unrecognized availability token aborts 400; with no parameter every
record is returned. Results are serialized. -/
def list_products (store : Store) (name category available : Option String) :
    HttpResult (List Payload) :=
  if truthy name then
    .ok 200 ((Product.find_by_name store (name.getD "")).map Product.serialize)
  else if truthy category then
    match Category.fromName (category.getD "") with
    | none => .err 400
    | some category_enum =>
        .ok 200 ((Product.find_by_category store category_enum).map Product.serialize)
  else
    match available with
    | some avail_str =>
      match parseAvail avail_str with
      | some avail_bool =>
          .ok 200 ((Product.find_by_availability store avail_bool).map Product.serialize)
      | none => .err 400
    | none => .ok 200 ((Product.all store).map Product.serialize)

/-- `get_products` of `src/service/routes.py` lines 135 to 142: find by
id, abort 404 when absent, otherwise 200 with the serialization. The
handler does not write to the store. -/
def get_products (store : Store) (product_id : Nat) : HttpResult Payload :=
  match Product.find store product_id with
  | none => .err 404
  | some product => .ok 200 product.serialize

/-- `create_products` of `src/service/routes.py` lines 72 to 94: check
the content type, deserialize the body into a fresh product, insert it,
and answer 201 with the serialization of the saved product. A failing
deserialization is translated to 400 (spec section 7 taxonomy). The
initial field values of the fresh `Product()` are irrelevant: every
field except `id` is overwritten by deserialize. The Location header is
elided. -/
def create_products (store : Store) (contentType : Option String) (data : Payload) :
    HttpResult Payload × Store :=
  match check_content_type contentType appJson with
  | some c => (.err c, store)
  | none =>
    let blank : Product :=
      { id := none, name := "", description := "", price := 0,
        available := false, category := .CLOTHS }
    match blank.deserialize data with
    | .error _ => (.err 400, store)
    | .ok product =>
      let created := Product.create store product
      (.ok 201 created.2.serialize, created.1)

/-- `update_products` of `src/service/routes.py` lines 147 to 161:
check the content type, find the record (abort 404 when absent),
deserialize the body over it, force the id back to the path id
(line 159), persist, and answer 200 with the serialization. A failing
deserialization is translated to 400 (spec section 7 taxonomy). -/
def update_products (store : Store) (product_id : Nat)
    (contentType : Option String) (data : Payload) :
    HttpResult Payload × Store :=
  match check_content_type contentType appJson with
  | some c => (.err c, store)
  | none =>
    match Product.find store product_id with
    | none => (.err 404, store)
    | some product =>
      match product.deserialize data with
      | .error _ => (.err 400, store)
      | .ok p0 =>
        let p1 := { p0 with id := some product_id }
        (.ok 200 p1.serialize, Product.update store p1)

/-- `delete_products` of `src/service/routes.py` lines 167 to 175: find
the record, abort 404 when absent, otherwise delete it and answer 204
with an empty body (the empty body is modelled as `Unit`). -/
def delete_products (store : Store) (product_id : Nat) :
    HttpResult Unit × Store :=
  match Product.find store product_id with
  | none => (.err 404, store)
  | some _ => (.ok 204 (), Product.delete store product_id)

/-- A concrete stored record, used to evaluate the theorems below on
concrete inputs (the example scenario of spec section 8). -/
def fedora : Product :=
  { id := some 1, name := "Fedora", description := "A red hat", price := 12,
    available := true, category := .CLOTHS }

/-- A second concrete stored record with the other category and
availability. -/
def kiwi : Product :=
  { id := some 2, name := "Kiwi", description := "A fruit", price := 1,
    available := false, category := .FOOD }

/-- A concrete two-row store for evaluating the theorems below. -/
def demoStore : Store := [fedora, kiwi]

/-- A present non-empty parameter is truthy. -/
theorem truthy_some {s : String} (h : s ≠ "") : truthy (some s) = true := by
  have he : s.isEmpty = false := by
    cases he : s.isEmpty
    · rfl
    · exact absurd ((String.isEmpty_iff s).mp he) h
  simp [truthy, he]

/-- An absent parameter is not truthy. -/
theorem truthy_none : truthy none = false := rfl

/-- A present but empty parameter is not truthy. -/
theorem truthy_empty : truthy (some "") = false := rfl

/-- C1: the three listing query parameters are mutually exclusive and
dispatched in priority order name, category, available; with none
supplied every record is returned. The name conjunct holds for every
value of the category and available parameters, so supplying both name
and category applies only the name filter. -/
theorem list_products_dispatch_priority (store : Store) (n c a : Option String) :
    (∀ s, n = some s → s ≠ "" →
       list_products store n c a
         = .ok 200 ((Product.find_by_name store s).map Product.serialize)) ∧
    (truthy n = false → ∀ s cat, c = some s → s ≠ "" → Category.fromName s = some cat →
       list_products store n c a
         = .ok 200 ((Product.find_by_category store cat).map Product.serialize)) ∧
    (truthy n = false → truthy c = false → ∀ v b, a = some v → parseAvail v = some b →
       list_products store n c a
         = .ok 200 ((Product.find_by_availability store b).map Product.serialize)) ∧
    (n = none → c = none → a = none →
       list_products store n c a
         = .ok 200 ((Product.all store).map Product.serialize)) := by
  refine ⟨?_, ?_, ?_, ?_⟩
  · rintro s rfl hs
    simp [list_products, truthy_some hs]
  · rintro hn s cat rfl hs hcat
    simp [list_products, hn, truthy_some hs, hcat]
  · rintro hn hc v b rfl hb
    simp [list_products, hn, hc, hb]
  · rintro rfl rfl rfl
    simp [list_products, truthy_none]

/-- Evaluation of the dispatch theorem on the concrete store: all four
branches at concrete parameter values. -/
theorem list_products_dispatch_priority_witness :
    list_products demoStore (some "Fedora") (some "FOOD") (some "junk")
      = .ok 200 ((Product.find_by_name demoStore "Fedora").map Product.serialize) ∧
    list_products demoStore none (some "FOOD") (some "junk")
      = .ok 200 ((Product.find_by_category demoStore .FOOD).map Product.serialize) ∧
    list_products demoStore none none (some "yes")
      = .ok 200 ((Product.find_by_availability demoStore true).map Product.serialize) ∧
    list_products demoStore none none none
      = .ok 200 ((Product.all demoStore).map Product.serialize) := by
  refine ⟨?_, ?_, ?_, ?_⟩
  · exact (list_products_dispatch_priority demoStore (some "Fedora") (some "FOOD")
      (some "junk")).1 "Fedora" rfl (by decide)
  · exact (list_products_dispatch_priority demoStore none (some "FOOD")
      (some "junk")).2.1 rfl "FOOD" .FOOD rfl (by decide) (by decide)
  · exact (list_products_dispatch_priority demoStore none none
      (some "yes")).2.2.1 rfl rfl "yes" true rfl (by decide)
  · exact (list_products_dispatch_priority demoStore none none none).2.2.2 rfl rfl rfl

/-- C4: a category query value that names no enumeration member yields
400 for every store (the result does not depend on the store, so the
store is not consulted for that filter). -/
theorem list_unknown_category_client_error (store : Store) (n a : Option String)
    (c : String) (hn : truthy n = false) (hne : c ≠ "")
    (hc : Category.fromName c = none) :
    list_products store n (some c) a = .err 400 := by
  simp [list_products, hn, truthy_some hne, hc]

/-- Evaluation of the unknown-category theorem at a concrete store and
a concrete unknown name. -/
theorem list_unknown_category_client_error_witness :
    list_products demoStore none (some "GADGETS") none = .err 400 :=
  list_unknown_category_client_error demoStore none none "GADGETS" rfl
    (by decide) (by decide)

/-- C5: the availability parameter is parsed case-insensitively; the
tokens true, 1, yes select the availability filter with true and the
tokens false, 0, no select it with false; any other value yields 400. -/
theorem list_available_token_parsing (store : Store) (n c : Option String) (v : String)
    (hn : truthy n = false) (hc : truthy c = false) :
    (pyLower v ∈ (["true", "1", "yes"] : List String) →
       list_products store n c (some v)
         = .ok 200 ((Product.find_by_availability store true).map Product.serialize)) ∧
    (pyLower v ∈ (["false", "0", "no"] : List String) →
       list_products store n c (some v)
         = .ok 200 ((Product.find_by_availability store false).map Product.serialize)) ∧
    (pyLower v ∉ (["true", "1", "yes"] : List String) →
     pyLower v ∉ (["false", "0", "no"] : List String) →
       list_products store n c (some v) = .err 400) := by
  refine ⟨?_, ?_, ?_⟩
  · intro h
    simp [list_products, hn, hc, parseAvail, h]
  · intro h
    have h1 : pyLower v ∉ (["true", "1", "yes"] : List String) := by
      simp only [List.mem_cons, List.not_mem_nil, or_false] at h ⊢
      rcases h with h | h | h <;> rw [h] <;> decide
    simp [list_products, hn, hc, parseAvail, h, h1]
  · intro h1 h2
    simp [list_products, hn, hc, parseAvail, h1, h2]

/-- Evaluation of the availability-token theorem: an uppercase true
token, a mixed-case false token, and a rejected token, on the concrete
store. -/
theorem list_available_token_parsing_witness :
    list_products demoStore none none (some "TRUE")
      = .ok 200 ((Product.find_by_availability demoStore true).map Product.serialize) ∧
    list_products demoStore none none (some "No")
      = .ok 200 ((Product.find_by_availability demoStore false).map Product.serialize) ∧
    list_products demoStore none none (some "banana") = HttpResult.err 400 := by
  refine ⟨?_, ?_, ?_⟩
  · exact (list_available_token_parsing demoStore none none "TRUE" rfl rfl).1 (by decide)
  · exact (list_available_token_parsing demoStore none none "No" rfl rfl).2.1 (by decide)
  · exact (list_available_token_parsing demoStore none none "banana" rfl rfl).2.2
      (by decide) (by decide)

/-- C9: an empty-string name or category parameter is treated as
absent: dispatch falls through, a lone empty name returns all records,
and an empty name with a category applies the category filter. -/
theorem empty_string_params_fall_through (store : Store) :
    (∀ c a, list_products store (some "") c a = list_products store none c a) ∧
    (∀ n a, list_products store n (some "") a = list_products store n none a) ∧
    list_products store (some "") none none
      = .ok 200 ((Product.all store).map Product.serialize) ∧
    (∀ cs cat, cs ≠ "" → Category.fromName cs = some cat →
       list_products store (some "") (some cs) none
         = .ok 200 ((Product.find_by_category store cat).map Product.serialize)) := by
  refine ⟨?_, ?_, ?_, ?_⟩
  · intro c a
    rfl
  · intro n a
    cases hn : truthy n <;> simp [list_products, hn, truthy_none, truthy_empty]
  · simp [list_products, truthy_none, truthy_empty]
  · intro cs cat hne hcat
    simp [list_products, truthy_empty, truthy_some hne, hcat]

/-- Evaluation of the empty-parameter theorem at the concrete store,
with a concrete category for the fall-through conjunct. -/
theorem empty_string_params_fall_through_witness :
    list_products demoStore (some "") (some "junk") none
      = list_products demoStore none (some "junk") none ∧
    list_products demoStore none (some "") none
      = list_products demoStore none none none ∧
    list_products demoStore (some "") none none
      = .ok 200 ((Product.all demoStore).map Product.serialize) ∧
    list_products demoStore (some "") (some "FOOD") none
      = .ok 200 ((Product.find_by_category demoStore .FOOD).map Product.serialize) := by
  refine ⟨?_, ?_, ?_, ?_⟩
  · exact (empty_string_params_fall_through demoStore).1 (some "junk") none
  · exact (empty_string_params_fall_through demoStore).2.1 none none
  · exact (empty_string_params_fall_through demoStore).2.2.1
  · exact (empty_string_params_fall_through demoStore).2.2.2 "FOOD" .FOOD
      (by decide) (by decide)

/-- C10: an empty-string available parameter (with name and category
absent or empty) is present but matches no accepted token, so the
request yields 400 rather than all records. -/
theorem empty_available_client_error (store : Store) (n c : Option String)
    (hn : truthy n = false) (hc : truthy c = false) :
    list_products store n c (some "") = .err 400 := by
  have h : parseAvail "" = none := by decide
  simp [list_products, hn, hc, h]

/-- Evaluation of the empty-available theorem on the concrete store,
with name and category also supplied as empty strings. -/
theorem empty_available_client_error_witness :
    list_products demoStore (some "") (some "") (some "") = .err 400 :=
  empty_available_client_error demoStore (some "") (some "") rfl rfl

/-- Looking up the stored id after an update returns the updated
record, provided a record with that id was stored. -/
theorem find_update_of_find (store : Store) (pid : Nat) (p newp : Product)
    (hid : newp.id = some pid)
    (hfind : Product.find store pid = some p) :
    Product.find (Product.update store newp) pid = some newp := by
  induction store with
  | nil => simp [Product.find] at hfind
  | cons q rest ih =>
    by_cases h : q.id = some pid
    · simp [Product.find, Product.update, List.find?_cons, h, hid]
    · have hne : q.id ≠ newp.id := fun hqe => h (hqe.trans hid)
      have hfind1 : Product.find rest pid = some p := by
        simpa [Product.find, List.find?_cons, h] using hfind
      have ihr := ih hfind1
      simpa [Product.find, Product.update, List.find?_cons, if_neg hne, h] using ihr

/-- A stored record whose id differs from the updated id is untouched
by the update. -/
theorem mem_update_of_ne (store : Store) (newp q : Product)
    (hq : q ∈ store) (hne : q.id ≠ newp.id) :
    q ∈ Product.update store newp := by
  have h := List.mem_map_of_mem (fun r => if r.id = newp.id then newp else r) hq
  simp only [if_neg hne] at h
  exact h

/-- After a delete, looking up the deleted id finds nothing. -/
theorem find_delete_self (store : Store) (pid : Nat) :
    Product.find (Product.delete store pid) pid = none := by
  rw [Product.find, List.find?_eq_none]
  intro x hx
  have hmem := List.of_mem_filter hx
  simpa using hmem

/-- C2 counterexample: on the empty store, deleting id 1 answers 404
with the store unchanged, not 204; the claim that every delete yields
204 fails. -/
theorem delete_absent_counterexample :
    delete_products ([] : Store) 1 = (.err 404, ([] : Store)) ∧
    (delete_products ([] : Store) 1).1 ≠ .ok 204 () := by
  exact ⟨rfl, by decide⟩

/-- C2 amended: deleting an existing id answers 204 with an empty body
and removes the record; deleting an absent id answers 404 and leaves
the store unchanged. -/
theorem delete_products_spec (store : Store) (pid : Nat) :
    (Product.find store pid = none →
       delete_products store pid = (.err 404, store)) ∧
    (∀ p, Product.find store pid = some p →
       delete_products store pid = (.ok 204 (), Product.delete store pid) ∧
       Product.find (Product.delete store pid) pid = none) := by
  constructor
  · intro h
    simp [delete_products, h]
  · intro p h
    exact ⟨by simp [delete_products, h], find_delete_self store pid⟩

/-- Evaluation of the amended delete theorem on the concrete store: an
absent id answers 404, a present id answers 204 and its record is gone
afterwards. -/
theorem delete_products_spec_witness :
    delete_products demoStore 3 = (.err 404, demoStore) ∧
    delete_products demoStore 1 = (.ok 204 (), Product.delete demoStore 1) ∧
    Product.find (Product.delete demoStore 1) 1 = none := by
  refine ⟨(delete_products_spec demoStore 3).1 (by decide),
          ((delete_products_spec demoStore 1).2 fedora (by decide)).1,
          ((delete_products_spec demoStore 1).2 fedora (by decide)).2⟩

/-- C3: deserializing the serialization of a product reproduces every
field of the product, except that the id is not assigned: it stays the
id of the receiver. -/
theorem deserialize_serialize_roundtrip (p q : Product) :
    Product.deserialize q (Product.serialize p) = .ok { p with id := q.id } := by
  have hcat : Category.fromName p.category.name = some p.category := by
    cases p.category <;> rfl
  simp [Product.serialize, Product.deserialize, hcat]

/-- C6: with the Content-Type header absent or different from
application/json, create and update answer 415 and leave the store
unchanged, whatever the body holds. -/
theorem content_type_enforced (ct : Option String) (hct : ct ≠ some appJson)
    (store : Store) (data : Payload) (pid : Nat) :
    create_products store ct data = (.err 415, store) ∧
    update_products store pid ct data = (.err 415, store) := by
  have h : check_content_type ct appJson = some 415 := by
    cases ct with
    | none => rfl
    | some v =>
      have hv : v ≠ appJson := fun hv => hct (by rw [hv])
      simp [check_content_type, hv]
  exact ⟨by simp [create_products, h], by simp [update_products, h]⟩

/-- Evaluation of the content-type theorem on the concrete store: a
wrong header for create, and a missing header for update. -/
theorem content_type_enforced_witness :
    create_products demoStore (some "text/html") fedora.serialize
      = (.err 415, demoStore) ∧
    update_products demoStore 1 none fedora.serialize = (.err 415, demoStore) := by
  exact ⟨(content_type_enforced (some "text/html") (by decide) demoStore
            fedora.serialize 1).1,
         (content_type_enforced none (by decide) demoStore fedora.serialize 1).2⟩

/-- C7: updating an existing record with a valid payload answers 200;
the resulting record carries the id from the request path even when the
payload carries a differing id, every other field comes from the
payload, the response body is its serialization (so it carries the path
id), looking the path id up in the new store returns it, and records
with other ids are untouched. -/
theorem update_preserves_path_id (store : Store) (product_id : Nat) (data : Payload)
    (p : Product) (hfind : Product.find store product_id = some p)
    (nm cs : String) (cat : Category) (pr : ℚ) (av : Bool)
    (hnm : data.name = some nm) (hcs : data.category = some cs)
    (hcat : Category.fromName cs = some cat)
    (hav : data.available = some av) (hpr : data.price = some pr) :
    ∃ newp : Product,
      update_products store product_id (some appJson) data
        = (.ok 200 newp.serialize, Product.update store newp) ∧
      newp.id = some product_id ∧
      newp.name = nm ∧
      newp.description = data.description.getD "" ∧
      newp.price = pr ∧
      newp.available = av ∧
      newp.category = cat ∧
      (newp.serialize).id = some product_id ∧
      Product.find (Product.update store newp) product_id = some newp ∧
      (∀ q ∈ store, q.id ≠ some product_id → q ∈ Product.update store newp) := by
  refine ⟨{ id := some product_id, name := nm,
            description := data.description.getD "",
            price := pr, available := av, category := cat },
          ?_, rfl, rfl, rfl, rfl, rfl, rfl, rfl, ?_, ?_⟩
  · simp [update_products, check_content_type, appJson, hfind,
          Product.deserialize, hnm, hcs, hcat, hav, hpr]
  · exact find_update_of_find store product_id p _ rfl hfind
  · intro q hq hne
    exact mem_update_of_ne store _ q hq hne

/-- Evaluation of the update theorem: the single-row concrete store,
updated through a payload whose id field differs from the path id. -/
theorem update_preserves_path_id_witness :
    ∃ newp : ProductService.Product,
      update_products demoStore 1 (some appJson)
          { id := some 99, name := some "Trilby", description := some "A newer hat",
            price := some 7, available := some false, category := some "CLOTHS" }
        = (.ok 200 newp.serialize, Product.update demoStore newp) ∧
      newp.id = some 1 ∧
      newp.name = "Trilby" ∧
      newp.description = (some "A newer hat").getD "" ∧
      newp.price = 7 ∧
      newp.available = false ∧
      newp.category = Category.CLOTHS ∧
      (newp.serialize).id = some 1 ∧
      Product.find (Product.update demoStore newp) 1 = some newp ∧
      (∀ q ∈ demoStore, q.id ≠ some 1 → q ∈ Product.update demoStore newp) :=
  update_preserves_path_id demoStore 1
    { id := some 99, name := some "Trilby", description := some "A newer hat",
      price := some 7, available := some false, category := some "CLOTHS" }
    fedora (by decide) "Trilby" "CLOTHS" Category.CLOTHS 7 false
    rfl rfl (by decide) rfl rfl

/-- C8: with no stored record for an id, read answers 404 and update
(with the JSON content type) answers 404 leaving the store unchanged;
with a stored record, read answers 200 with its serialization. The read
handler takes no store argument back, so it never writes. -/
theorem read_update_absent_and_present (store : Store) (product_id : Nat)
    (data : Payload) :
    (Product.find store product_id = none →
       get_products store product_id = .err 404 ∧
       update_products store product_id (some appJson) data = (.err 404, store)) ∧
    (∀ p, Product.find store product_id = some p →
       get_products store product_id = .ok 200 p.serialize) := by
  constructor
  · intro h
    constructor
    · simp [get_products, h]
    · simp [update_products, check_content_type, appJson, h]
  · intro p h
    simp [get_products, h]

/-- Evaluation of the read and update theorem on the concrete store: an
absent id and a present one. -/
theorem read_update_absent_and_present_witness :
    (get_products demoStore 3 = .err 404 ∧
     update_products demoStore 3 (some appJson) fedora.serialize
       = (.err 404, demoStore)) ∧
    get_products demoStore 1 = .ok 200 fedora.serialize := by
  exact ⟨(read_update_absent_and_present demoStore 3 fedora.serialize).1 (by decide),
         (read_update_absent_and_present demoStore 1 fedora.serialize).2 fedora
           (by decide)⟩

end ProductService
